import Mathlib

/-!
Verification model of the esm234/Shasj message-relay bot.

The Python sources are embedded shallowly:
* src/smart_parser.py : parse_question_text, the rule-based text structuring engine;
* src/bot.py : the reply-correlation table replies_data, the relay handlers
  forward_to_admin_group_new, handle_user_reply, handle_admin_reply,
  handle_user_message, and the ban registry ban_user, unban_user, unban_command.

Modelling conventions: message and user identifiers are Nat; submission
identifiers (uuid strings) are String; Python dicts become insertion-ordered
association lists; each outbound platform call is abstracted by a SendResult
parameter (ok with the freshly allocated message id, or err for a raised
exception inside the try block). Character classes of the regular expressions
are modelled over the repertoire the program actually meets (ASCII plus the
Arabic block); the Python tables keyed by str(user_id) are keyed here by the
id itself, str being injective on the ids.
-/

namespace Shasj

/-- Association-list lookup, the read dict[k] / dict.get(k) on a Python dict image. -/
def getEntry {κ α : Type} [DecidableEq κ] : List (κ × α) → κ → Option α
  | [], _ => none
  | (k, v) :: t, k' => if k = k' then some v else getEntry t k'

/-- Association-list write dict[k] = v: overwrite in place keeping the position of the
key, otherwise append, matching Python dict insertion order. -/
def setEntry {κ α : Type} [DecidableEq κ] : List (κ × α) → κ → α → List (κ × α)
  | [], k, v => [(k, v)]
  | (k0, v0) :: t, k, v => if k0 = k then (k, v) :: t else (k0, v0) :: setEntry t k v

/-- In-place mutation of the record stored at key k, as Python mutates dict[k] fields. -/
def updateEntry {κ α : Type} [DecidableEq κ] : List (κ × α) → κ → (α → α) → List (κ × α)
  | [], _, _ => []
  | (k0, v0) :: t, k, f => if k0 = k then (k, f v0) :: t else (k0, v0) :: updateEntry t k f

/-- Deletion del dict[k]. -/
def eraseKey {κ α : Type} [DecidableEq κ] : List (κ × α) → κ → List (κ × α)
  | [], _ => []
  | (k0, v0) :: t, k => if k0 = k then t else (k0, v0) :: eraseKey t k

/-- Number of entries stored under key k (a dict image stores 0 or 1). -/
def countKey {κ α : Type} [DecidableEq κ] (l : List (κ × α)) (k : κ) : Nat :=
  (l.filter (fun e => e.1 = k)).length

/-! ## Text structuring engine, src/smart_parser.py -/

/-- Whitespace class of Python str.strip and of the regex class backslash-s, over the
code points exercised here. -/
def isPyWs (c : Char) : Bool :=
  c == ' ' || c == '\t' || c == '\n' || c == '\r' || c.val == 11 || c.val == 12

/-- Python str.strip. -/
def pyStrip (l : List Char) : List Char :=
  ((l.dropWhile isPyWs).reverse.dropWhile isPyWs).reverse

/-- Python str.split on a newline; the empty string splits into one empty piece. -/
def splitLines : List Char → List (List Char)
  | [] => [[]]
  | c :: rest =>
    if c = '\n' then [] :: splitLines rest
    else
      match splitLines rest with
      | [] => [[c]]
      | l :: ls => (c :: l) :: ls

/-- Regex word class over ASCII alphanumerics, underscore, the Arabic letter block
U+0621..U+064A and the Arabic-Indic digits U+0660..U+0669. -/
def isWordChar (c : Char) : Bool :=
  c.isAlpha || c.isDigit || c == '_' ||
    (decide ((0x621 : UInt32) ≤ c.val) && decide (c.val ≤ (0x64A : UInt32))) ||
    (decide ((0x660 : UInt32) ≤ c.val) && decide (c.val ≤ (0x669 : UInt32)))

/-- Decimal-digit class of the regex (ASCII digits and Arabic-Indic digits). -/
def isDigitLike (c : Char) : Bool :=
  c.isDigit || (decide ((0x660 : UInt32) ≤ c.val) && decide (c.val ≤ (0x669 : UInt32)))

/-- Option-marker delimiters of the pattern at src/smart_parser.py line 11: dot, closing
parenthesis, dash. -/
def optDelims : List Char := ['.', ')', '-']

/-- Match of the regex fragment consuming zero or more whitespace characters then one
delimiter; returns the consumed length. Backtracking cannot produce another outcome:
the delimiters are not whitespace, so the greedy whitespace run is forced. -/
def delimAfterWs (l : List Char) : Option Nat :=
  let k := (l.takeWhile isPyWs).length
  match l.drop k with
  | d :: _ => if optDelims.contains d then some (k + 1) else none
  | [] => none

/-- Length of the match of option_pattern (src/smart_parser.py line 11) at the start of
the line, if any, with the four alternatives tried in Python order. The IGNORECASE flag
is inert, no character class of the pattern being case-sensitive. -/
def optionMatchLen (l : List Char) : Option Nat :=
  let w := (l.takeWhile isPyWs).length
  match l.drop w with
  | [] => none
  | c :: rest =>
    match (if decide ((0x623 : UInt32) ≤ c.val) && decide (c.val ≤ (0x64A : UInt32)) then
             delimAfterWs rest else none) with
    | some k => some (w + 1 + k)
    | none =>
      match (if isWordChar c then delimAfterWs rest else none) with
      | some k => some (w + 1 + k)
      | none =>
        match (if decide ('1' ≤ c) && decide (c ≤ '9') then
                 let d := (rest.takeWhile isDigitLike).length
                 (delimAfterWs (rest.drop d)).map (· + d)
               else none) with
        | some k => some (w + 1 + k)
        | none =>
          if (c == '*' || c == '•' || c == '-') && !(rest.takeWhile isPyWs).isEmpty then
            some (w + 1 + (rest.takeWhile isPyWs).length)
          else none

/-- Effect of option_pattern.sub on a line: the pattern is anchored by the caret and no
match is empty, so at most the single match at position zero is removed. -/
def stripOptionMarker (l : List Char) : List Char :=
  match optionMatchLen l with
  | some k => l.drop k
  | none => l

/-- Conversational lead-in phrases of src/smart_parser.py line 26. -/
def commonIntros : List (List Char) :=
  ["جاني سؤال".data, "جالي سؤال".data, "السؤال كان".data, "كان فيه سؤال".data,
   "سؤال اليوم".data]

/-- Contiguous-occurrence test, the Python substring operator in. -/
def occursIn (pat : List Char) : List Char → Bool
  | [] => pat.isEmpty
  | c :: t => pat.isPrefixOf (c :: t) || occursIn pat t

/-- Python str.lower over this repertoire: ASCII case folding, Arabic letters caseless. -/
def pyLower (l : List Char) : List Char := l.map Char.toLower

/-- Filler test of src/smart_parser.py line 27: some known lead-in occurs in the lowered
line and the line is shorter than 35 characters. -/
def isIntroLine (line : List Char) : Bool :=
  commonIntros.any (fun i => occursIn i (pyLower line)) && decide (line.length < 35)

/-- Line classification loop of src/smart_parser.py lines 18..35: collects the stem lines
and the option lines while threading the sticky reading flag that is set for good by the
first line matching option_pattern. -/
def classifyLines : List (List Char) → Bool → List (List Char) × List (List Char)
  | [], _ => ([], [])
  | l :: ls, reading =>
    let line := pyStrip l
    if line = [] then classifyLines ls reading
    else
      let readingNow := reading || (optionMatchLen line).isSome
      if !readingNow && isIntroLine line then classifyLines ls readingNow
      else if readingNow then
        let clean := pyStrip (stripOptionMarker line)
        let rest := classifyLines ls readingNow
        (rest.1, if clean = [] then rest.2 else clean :: rest.2)
      else
        let rest := classifyLines ls readingNow
        (line :: rest.1, rest.2)

/-- Option-introducer phrases removed from the joined stem at src/smart_parser.py
line 44; the fourth one is anchored to the end of the string by the regex dollar. -/
def kwOptionsA : List Char := "الخيارات هي:".data

/-- Second alternative of the stem substitution at src/smart_parser.py line 44. -/
def kwOptionsB : List Char := "الخيارات:".data

/-- Third alternative of the stem substitution at src/smart_parser.py line 44. -/
def kwOptionsC : List Char := "الاختيارات هي:".data

/-- Fourth, end-anchored alternative of the stem substitution at line 44. -/
def kwOptionsD : List Char := "الاختيارات:".data

/-- Global regex substitution of src/smart_parser.py line 44, scanning left to right and
trying the alternatives in order; the fuel argument bounds the remaining length. -/
def keywordSubGo : Nat → List Char → List Char
  | 0, s => s
  | _ + 1, [] => []
  | fuel + 1, c :: t =>
    if kwOptionsA.isPrefixOf (c :: t) then keywordSubGo fuel ((c :: t).drop kwOptionsA.length)
    else if kwOptionsB.isPrefixOf (c :: t) then keywordSubGo fuel ((c :: t).drop kwOptionsB.length)
    else if kwOptionsC.isPrefixOf (c :: t) then keywordSubGo fuel ((c :: t).drop kwOptionsC.length)
    else if c :: t = kwOptionsD then []
    else c :: keywordSubGo fuel t

/-- Entry point of the stem keyword substitution. -/
def keywordSub (s : List Char) : List Char := keywordSubGo s.length s

/-- Python " ".join. -/
def joinSpace : List (List Char) → List Char
  | [] => []
  | [l] => l
  | l :: ls => l ++ ' ' :: joinSpace ls

/-- Result record of parse_question_text: keys question_text and options. -/
structure ParseResult where
  question_text : String
  options : List String
deriving Repr, DecidableEq

/-- Shallow embedding of parse_question_text, src/smart_parser.py lines 4..49. -/
def parse_question_text (text : String) : ParseResult :=
  let stripped := pyStrip text.data
  let qo := classifyLines (splitLines stripped) false
  match qo.2 with
  | [] => { question_text := String.mk stripped, options := [] }
  | o :: os =>
      { question_text := String.mk (pyStrip (keywordSub (pyStrip (joinSpace qo.1)))),
        options := (o :: os).map String.mk }

/-- Contribution of one raw line to the option list once the sticky flag is set: strip,
drop the line if empty, strip the leading marker, drop the result if then empty. -/
def cleanedOption (l : List Char) : Option (List Char) :=
  let s := pyStrip l
  if s = [] then none
  else
    let c := pyStrip (stripOptionMarker s)
    if c = [] then none else some c

/-- Contribution of one raw line to the stem while the flag is unset: strip, drop empty
lines and short filler lead-in lines. -/
def stemLine (l : List Char) : Option (List Char) :=
  let s := pyStrip l
  if s = [] then none
  else if isIntroLine s then none else some s

/-! ## Correlation engine and relay dispatch, src/bot.py -/

/-- One entry of the admin_replies list of a thread (src/bot.py line 597): the staff
reply message id in the admin group and the delivered copy id in the user chat. -/
structure AdminReply where
  admin_message_id : Nat
  user_reply_message_id : Nat
deriving Repr, DecidableEq

/-- One replies_data record (src/bot.py lines 522, 571..573, 596..597). The two list
fields default to absent in Python and are read through dict.get with default []; they
are modelled as always-present lists. -/
structure ThreadRec where
  user_id : Nat
  user_message_id : Nat
  admin_message_id : Option Nat
  admin_thread_message_ids : List Nat
  admin_replies : List AdminReply
deriving Repr, DecidableEq

/-- The replies_data table, keyed by question_id. -/
abbrev RepliesData := List (String × ThreadRec)

/-- Outcome of one outbound platform call inside a try block: the platform returns the
id of the newly created message, or the call raises. -/
inductive SendResult where
  | ok (mid : Nat)
  | err
deriving Repr, DecidableEq

/-- Staff-side membership test of one thread used by handle_admin_reply line 583:
the replied-to id is its admin_message_id or occurs in admin_thread_message_ids. -/
def claimsStaffB (r : ThreadRec) (m : Nat) : Bool :=
  decide (r.admin_message_id = some m) ||
    r.admin_thread_message_ids.any (fun x => decide (x = m))

/-- Staff-side thread lookup of handle_admin_reply (src/bot.py line 583): first matching
entry in dict insertion order. -/
def findByAdminMsg (rd : RepliesData) (m : Nat) : Option String :=
  (rd.find? (fun e => claimsStaffB e.2 m)).map Prod.fst

/-- Does any thread already claim the staff-side id m. -/
def staffMsgTracked (rd : RepliesData) (m : Nat) : Bool :=
  rd.any (fun e => claimsStaffB e.2 m)

/-- User-side membership test of one thread used by handle_user_reply line 550: some
recorded admin reply delivered the copy with this user-chat message id. -/
def claimsUserReplyB (r : ThreadRec) (m : Nat) : Bool :=
  r.admin_replies.any (fun p => decide (p.user_reply_message_id = m))

/-- User-side thread lookup of handle_user_reply (src/bot.py lines 548..553): first
matching entry in dict order, together with the admin_message_id stored beside the
matching user_reply_message_id. The Python next() is guarded by the any() test, so the
inner search cannot miss. -/
def findByUserReplyMsg (rd : RepliesData) (m : Nat) : Option (String × Nat) :=
  match rd.find? (fun e => claimsUserReplyB e.2 m) with
  | none => none
  | some e =>
    match e.2.admin_replies.find? (fun p => decide (p.user_reply_message_id = m)) with
    | some p => some (e.1, p.admin_message_id)
    | none => none

/-- Does any thread already record the user-side delivered-copy id m. -/
def userReplyTracked (rd : RepliesData) (m : Nat) : Bool :=
  rd.any (fun e => claimsUserReplyB e.2 m)

/-- Observable outcome of forward_to_admin_group_new (src/bot.py lines 517..542): the
updated in-memory replies_data, whether save_data was reached, whether logger.error ran,
and whether any user-visible failure notice was sent (the except branch sends none). -/
structure ForwardOutcome where
  rd : RepliesData
  saved : Bool
  logged : Bool
  failNotice : Bool
deriving Repr, DecidableEq

/-- Shallow embedding of forward_to_admin_group_new, src/bot.py lines 517..542. The
entry for the submission is written into replies_data at line 522, before the try block;
the media-kind dispatch at lines 526..536 is abstracted into the single SendResult for
the sends of the try block (all branches bind sent_message on success). The formatting
of the forwarded header from the author metadata does not touch the tables and is
elided. -/
def forward_to_admin_group_new (rd : RepliesData) (qid : String) (uid umid : Nat)
    (send : SendResult) : ForwardOutcome :=
  let rd1 := setEntry rd qid
    { user_id := uid, user_message_id := umid, admin_message_id := none,
      admin_thread_message_ids := [], admin_replies := [] }
  match send with
  | .ok m =>
      { rd := updateEntry rd1 qid (fun r => { r with admin_message_id := some m }),
        saved := true, logged := false, failNotice := false }
  | .err => { rd := rd1, saved := false, logged := true, failNotice := false }

/-- Observable outcome of handle_user_reply: updated replies_data, whether the copy into
the admin group happened, whether the confirmation was sent to the user, whether
logger.error ran. -/
structure UserReplyOutcome where
  rd : RepliesData
  copiedToAdmin : Bool
  confirmNotice : Bool
  logged : Bool
deriving Repr, DecidableEq

/-- Shallow embedding of handle_user_reply, src/bot.py lines 544..578. The SendResult
abstracts the copy of the user reply into the admin group (line 559); on err the except
branch only logs. The Python falsiness guard at line 554 also drops a resolved hit whose
question id is empty or whose stored admin message id is zero. -/
def handle_user_reply (rd : RepliesData) (repliedMid : Nat)
    (send : SendResult) : UserReplyOutcome :=
  match findByUserReplyMsg rd repliedMid with
  | none => { rd := rd, copiedToAdmin := false, confirmNotice := false, logged := false }
  | some qa =>
    if qa.1 = "" ∨ qa.2 = 0 then
      { rd := rd, copiedToAdmin := false, confirmNotice := false, logged := false }
    else
      match send with
      | .ok m =>
          { rd := updateEntry rd qa.1 (fun r =>
              { r with admin_thread_message_ids := r.admin_thread_message_ids ++ [m] }),
            copiedToAdmin := true, confirmNotice := true, logged := false }
      | .err =>
          { rd := rd, copiedToAdmin := false, confirmNotice := false, logged := true }

/-- Observable outcome of handle_admin_reply: updated replies_data, whether the copy to
the user was delivered, whether the success confirmation was sent in the admin group,
whether the failure notice was sent in the admin group, whether logger.error ran. -/
structure AdminReplyOutcome where
  rd : RepliesData
  deliveredToUser : Bool
  confirmNotice : Bool
  failNotice : Bool
  logged : Bool
deriving Repr, DecidableEq

/-- Shallow embedding of handle_admin_reply, src/bot.py lines 580..602. The SendResult
abstracts the copy of the staff reply into the user chat (line 593); adminMid is the id
of the staff member reply message inside the admin group. The Python falsiness guard at
line 584 returns silently both on a lookup miss and on a resolved key that is the empty
string. On err the except branch logs and sends the single failure notice of line 602. -/
def handle_admin_reply (rd : RepliesData) (repliedMid adminMid : Nat)
    (send : SendResult) : AdminReplyOutcome :=
  match findByAdminMsg rd repliedMid with
  | none =>
      { rd := rd, deliveredToUser := false, confirmNotice := false,
        failNotice := false, logged := false }
  | some qid =>
    if qid = "" then
      { rd := rd, deliveredToUser := false, confirmNotice := false,
        failNotice := false, logged := false }
    else
      match send with
      | .ok m =>
          { rd := updateEntry rd qid (fun r =>
              { r with admin_replies := r.admin_replies ++
                  [{ admin_message_id := adminMid, user_reply_message_id := m }] }),
            deliveredToUser := true, confirmNotice := true, failNotice := false,
            logged := false }
      | .err =>
          { rd := rd, deliveredToUser := false, confirmNotice := false,
            failNotice := true, logged := true }

/-! ## Ban registry and submission intake, src/bot.py -/

/-- One banned_users record, src/bot.py line 151. -/
structure BanRecord where
  banned_at : String
  banned_by : Nat
  reason : String
deriving Repr, DecidableEq

/-- The banned_users table; Python keys it by str(user_id), an injective encoding, so
the model keys it by the id. -/
abbrev BannedTable := List (Nat × BanRecord)

/-- is_user_banned, src/bot.py line 146. -/
def is_user_banned (bt : BannedTable) (u : Nat) : Bool := (getEntry bt u).isSome

/-- ban_user, src/bot.py lines 149..156: writes the record and reports success (the
try block around a dict write cannot raise). -/
def ban_user (bt : BannedTable) (u admin : Nat) (ts reason : String) : BannedTable × Bool :=
  (setEntry bt u { banned_at := ts, banned_by := admin, reason := reason }, true)

/-- unban_user, src/bot.py lines 158..167: delete and report true when present,
otherwise report false without touching the table. -/
def unban_user (bt : BannedTable) (u : Nat) : BannedTable × Bool :=
  if (getEntry bt u).isSome then (eraseKey bt u, true) else (bt, false)

/-- Outcome of the unban command: the table and which of the two notices was sent. -/
structure UnbanCmdOutcome where
  bt : BannedTable
  notBannedNotice : Bool
  successNotice : Bool
deriving Repr, DecidableEq

/-- Shallow embedding of the decision part of unban_command, src/bot.py lines 464..470,
after the target id has been extracted: a non-banned target gets the not-banned notice
and the table is untouched, otherwise unban_user runs. -/
def unban_command (bt : BannedTable) (u : Nat) : UnbanCmdOutcome :=
  if is_user_banned bt u then
    { bt := (unban_user bt u).1, notBannedNotice := false,
      successNotice := (unban_user bt u).2 }
  else
    { bt := bt, notBannedNotice := true, successNotice := false }

/-- Shallow embedding of the decision part of ban_command, src/bot.py lines 419..425:
an already banned target leaves the table as is. -/
def ban_command (bt : BannedTable) (u admin : Nat) (ts reason : String) : BannedTable :=
  if is_user_banned bt u then bt else (ban_user bt u admin ts reason).1

/-- One questions_data record, restricted to the fields the handlers read back
(src/bot.py line 501); the author metadata strings are carried opaquely. -/
structure QuestionRec where
  user_id : Nat
  message_id : Nat
  message_type : String
  content : String
deriving Repr, DecidableEq

/-- The mutable tables of the bot that the studied handlers touch. -/
structure BotState where
  questions : List (String × QuestionRec)
  replies : RepliesData
  banned : BannedTable
deriving Repr, DecidableEq

/-- Observable outcome of handle_user_message. -/
structure UserMsgOutcome where
  st : BotState
  bannedNotice : Bool
  confirmNotice : Bool
  relayed : Bool
deriving Repr, DecidableEq

/-- Shallow embedding of handle_user_message, src/bot.py lines 484..515, for a fresh
submission (the delegation to handle_user_reply for replies to bot messages sits behind
the same ban gate and is modelled separately). The ban test of line 487 runs before any
table is touched; afterwards the question record is stored, the confirmation is sent,
and forward_to_admin_group_new runs. The active_users bookkeeping and the milestone
announcement touch no table studied here and are elided. -/
def handle_user_message (st : BotState) (u : Nat) (qid : String) (mid : Nat)
    (mtype content : String) (send : SendResult) : UserMsgOutcome :=
  if is_user_banned st.banned u then
    { st := st, bannedNotice := true, confirmNotice := false, relayed := false }
  else
    let questions1 := setEntry st.questions qid
      { user_id := u, message_id := mid, message_type := mtype, content := content }
    let fwd := forward_to_admin_group_new st.replies qid u mid send
    { st := { questions := questions1, replies := fwd.rd, banned := st.banned },
      bannedNotice := false, confirmNotice := true, relayed := fwd.saved }

/-- The inbound events that touch the studied tables. -/
inductive BotEvent where
  | userMsg (u : Nat) (qid : String) (mid : Nat) (mtype content : String) (send : SendResult)
  | banCmd (u admin : Nat) (ts reason : String)
  | unbanCmd (u : Nat)
deriving Repr, DecidableEq

/-- State transition of one inbound event. -/
def stepEvent (st : BotState) : BotEvent → BotState
  | .userMsg u qid mid mt c s => (handle_user_message st u qid mid mt c s).st
  | .banCmd u a ts r => { st with banned := ban_command st.banned u a ts r }
  | .unbanCmd u => { st with banned := (unban_command st.banned u).bt }

/-- Sequential processing of inbound events, one at a time. -/
def runEvents (st : BotState) (evs : List BotEvent) : BotState :=
  evs.foldl stepEvent st

/-- Staff-side identifiers a thread record claims: the relay copy id, the ids of user
replies copied into the admin group, and the ids of staff reply messages recorded in
admin_replies. -/
def threadStaffIds (r : ThreadRec) : List Nat :=
  (match r.admin_message_id with | some m => [m] | none => []) ++
    r.admin_thread_message_ids ++ r.admin_replies.map (fun p => p.admin_message_id)

/-! ## Helper lemmas on the classification loop -/

/-- Once the sticky flag is set, every remaining line is processed as an option line:
no stem line is collected and each line contributes through cleanedOption. -/
theorem classify_true_eq (ls : List (List Char)) :
    classifyLines ls true = ([], ls.filterMap cleanedOption) := by
  induction ls with
  | nil => rfl
  | cons l ls ih =>
    by_cases h : pyStrip l = []
    · simp [classifyLines, cleanedOption, h, ih]
    · by_cases h2 : pyStrip (stripOptionMarker (pyStrip l)) = []
      · simp [classifyLines, cleanedOption, h, h2, ih]
      · simp [classifyLines, cleanedOption, h, h2, ih]

/-- While no line matches the option pattern, no option line is ever collected. -/
theorem classify_false_no_options (ls : List (List Char))
    (h : ∀ l ∈ ls, optionMatchLen (pyStrip l) = none) :
    (classifyLines ls false).2 = [] := by
  induction ls with
  | nil => rfl
  | cons l ls ih =>
    have hl := h l (by simp)
    have hrest : ∀ l' ∈ ls, optionMatchLen (pyStrip l') = none :=
      fun l' hm => h l' (by simp [hm])
    by_cases he : pyStrip l = []
    · simpa [classifyLines, he] using ih hrest
    · by_cases hi : isIntroLine (pyStrip l) = true
      · simpa [classifyLines, he, hl, hi] using ih hrest
      · simpa [classifyLines, he, hl, hi] using ih hrest

/-- Splitting of the classification at the first line matching the option pattern:
everything before it contributes through stemLine, everything from it on through
cleanedOption. -/
theorem classify_split (pre post : List (List Char)) (l : List Char)
    (hpre : ∀ p ∈ pre, optionMatchLen (pyStrip p) = none)
    (hl : (optionMatchLen (pyStrip l)).isSome = true) :
    classifyLines (pre ++ l :: post) false =
      (pre.filterMap stemLine, (l :: post).filterMap cleanedOption) := by
  induction pre with
  | nil =>
    have hne : ¬(pyStrip l = []) := by
      intro he
      rw [he] at hl
      simp [optionMatchLen] at hl
    by_cases h2 : pyStrip (stripOptionMarker (pyStrip l)) = []
    · simp [classifyLines, hne, hl, classify_true_eq, cleanedOption, h2]
    · simp [classifyLines, hne, hl, classify_true_eq, cleanedOption, h2]
  | cons p pre ih =>
    have hp := hpre p (by simp)
    have hrest : ∀ q ∈ pre, optionMatchLen (pyStrip q) = none :=
      fun q hm => hpre q (by simp [hm])
    by_cases he : pyStrip p = []
    · simpa [classifyLines, he, stemLine, Prod.ext_iff] using ih hrest
    · by_cases hi : isIntroLine (pyStrip p) = true
      · simpa [classifyLines, he, hp, hi, stemLine, Prod.ext_iff] using ih hrest
      · simpa [classifyLines, he, hp, hi, stemLine, Prod.ext_iff] using ih hrest

/-- C6. Sticky option classification, amended: once a non-empty line matches the option
pattern, every subsequent non-empty line contributes an option (its leading marker
stripped, kept only if non-empty) whether or not it matches; the non-empty lines before
the first matching line become stem lines except short filler lead-in lines, which the
loop at src/smart_parser.py line 27 drops from the stem. -/
theorem c6_sticky_classification (pre post : List (List Char)) (l : List Char)
    (hpre : ∀ p ∈ pre, optionMatchLen (pyStrip p) = none)
    (hl : (optionMatchLen (pyStrip l)).isSome = true) :
    classifyLines (pre ++ l :: post) false =
      (pre.filterMap stemLine, (l :: post).filterMap cleanedOption) :=
  classify_split pre post l hpre hl

/-- C6 counterexample: the first line is non-empty, does not match the option pattern
and precedes the first matching line, yet it is not a stem line — the filler filter
drops it, refuting the claim that all non-empty lines before the first matching line
are stem lines. -/
theorem c6_counterexample :
    classifyLines ["جاني سؤال".data, "ما الجواب؟".data, "أ- نعم".data] false
      = (["ما الجواب؟".data], ["نعم".data]) ∧
    optionMatchLen (pyStrip "جاني سؤال".data) = none ∧
    pyStrip "جاني سؤال".data ≠ [] := by decide

/-- C6 witness: concrete instance of the amended classification theorem, with a stem
line, a matching option line, and a non-matching trailing line swallowed as an option. -/
theorem c6_witness :
    (∀ p ∈ [("نص سؤال".data : List Char)], optionMatchLen (pyStrip p) = none) ∧
    (optionMatchLen (pyStrip "1. خيار".data)).isSome = true ∧
    classifyLines (["نص سؤال".data] ++ "1. خيار".data :: ["تابع".data]) false
      = (["نص سؤال".data].filterMap stemLine,
         ("1. خيار".data :: ["تابع".data]).filterMap cleanedOption) :=
  ⟨by decide, by decide,
   c6_sticky_classification ["نص سؤال".data] ["تابع".data] "1. خيار".data
     (by decide) (by decide)⟩

/-- C7 counterexample: on the non-empty input consisting of one option-marker line, the
collected stem is empty after stripping, yet parse_question_text returns the empty stem
with the option, not the original input — refuting both the stated fallback condition
and the never-empty-stem consequence. -/
theorem c7_counterexample :
    parse_question_text "A) x" = { question_text := "", options := ["x"] } ∧
    ("A) x" : String) ≠ "" := by decide

/-- C7. Non-empty stem fallback, amended: the fallback of src/smart_parser.py lines
37..41 triggers exactly when no option line was collected, and it returns the original
input stripped of surrounding whitespace (not the raw input) with an empty option list;
when option lines exist the returned stem may be empty. -/
theorem c7_fallback_on_no_options (text : String)
    (h : (parse_question_text text).options = []) :
    (parse_question_text text).question_text = String.mk (pyStrip text.data) := by
  cases hq : (classifyLines (splitLines (pyStrip text.data)) false).2 with
  | nil => simp [parse_question_text, hq]
  | cons o os =>
    exfalso
    simp [parse_question_text, hq] at h

/-- C7 witness: a plain input collects no options and falls back to its stripped self. -/
theorem c7_witness :
    (parse_question_text "hello").options = [] ∧
    (parse_question_text "hello").question_text = String.mk (pyStrip "hello".data) :=
  ⟨by decide, c7_fallback_on_no_options "hello" (by decide)⟩

/-- C8 counterexample: an input with trailing whitespace and no option-marker line comes
back with the stem stripped, not equal to the input string unchanged. -/
theorem c8_counterexample :
    parse_question_text "hi " = { question_text := "hi", options := [] } ∧
    ("hi" : String) ≠ "hi " := by decide

/-- C8. Amended: when no line of the input matches the option pattern,
parse_question_text returns the input stripped of surrounding whitespace as the stem
(equal to the input exactly when the input carries no surrounding whitespace) and an
empty option list; on the empty string it returns the empty stem and no options. -/
theorem c8_no_marker_input :
    (∀ text : String,
       (∀ l ∈ splitLines (pyStrip text.data), optionMatchLen (pyStrip l) = none) →
       parse_question_text text =
         { question_text := String.mk (pyStrip text.data), options := [] }) ∧
    parse_question_text "" = { question_text := "", options := [] } := by
  constructor
  · intro text h
    have h2 := classify_false_no_options _ h
    simp [parse_question_text, h2]
  · decide

/-- C8 witness: a two-line input without option markers is returned whole. -/
theorem c8_witness :
    (∀ l ∈ splitLines (pyStrip "hello world\nsecond line".data),
       optionMatchLen (pyStrip l) = none) ∧
    parse_question_text "hello world\nsecond line" =
      { question_text := String.mk (pyStrip "hello world\nsecond line".data),
        options := [] } :=
  ⟨by decide, c8_no_marker_input.1 "hello world\nsecond line" (by decide)⟩

/-- C9. On the documented four-line input the parser returns the first line as the stem
and the three options with their enumerator markers stripped, in order. -/
theorem c9_concrete_example :
    parse_question_text "What is 2+2?\nA) 3\nB) 4\nC) 5"
      = { question_text := "What is 2+2?", options := ["3", "4", "5"] } := by decide

/-! ## Helper lemmas on the correlation tables -/

/-- A list with no element satisfying p contributes nothing to an any over an append. -/
theorem any_false_append {α : Type} (p : α → Bool) (xs ys : List α)
    (h : xs.any p = false) : (xs ++ ys).any p = ys.any p := by
  induction xs with
  | nil => rfl
  | cons x xs ih =>
    rw [List.any_cons, Bool.or_eq_false_iff] at h
    simp [List.any_cons, h.1, ih h.2]

/-- A list with no element satisfying p contributes nothing to a find? over an append. -/
theorem find?_false_append {α : Type} (p : α → Bool) (xs ys : List α)
    (h : xs.any p = false) : (xs ++ ys).find? p = ys.find? p := by
  induction xs with
  | nil => rfl
  | cons x xs ih =>
    rw [List.any_cons, Bool.or_eq_false_iff] at h
    simp [List.find?, h.1, ih h.2]

/-- The key resolved by the staff-side lookup is a key of the table. -/
theorem key_of_findByAdminMsg {rd : RepliesData} {m : Nat} {qid : String}
    (h : findByAdminMsg rd m = some qid) : ∃ v, (qid, v) ∈ rd := by
  unfold findByAdminMsg at h
  cases hf : rd.find? (fun e => claimsStaffB e.2 m) with
  | none => rw [hf] at h; cases h
  | some e =>
    rw [hf] at h
    have he := List.mem_of_find?_eq_some hf
    simp at h
    exact ⟨e.2, by rw [← h]; simpa using he⟩

/-- The key resolved by the user-side lookup is a key of the table. -/
theorem key_of_findByUserReplyMsg {rd : RepliesData} {m : Nat} {qid : String} {amid : Nat}
    (h : findByUserReplyMsg rd m = some (qid, amid)) : ∃ v, (qid, v) ∈ rd := by
  unfold findByUserReplyMsg at h
  cases hf : rd.find? (fun e => claimsUserReplyB e.2 m) with
  | none => rw [hf] at h; cases h
  | some e =>
    rw [hf] at h
    dsimp only at h
    have he := List.mem_of_find?_eq_some hf
    cases hg : e.2.admin_replies.find? (fun p => decide (p.user_reply_message_id = m)) with
    | none => rw [hg] at h; cases h
    | some p =>
      rw [hg] at h
      simp at h
      exact ⟨e.2, by rw [← h.1]; simpa using he⟩

/-- Updating the record at a present key with a function that makes it claim the fresh
staff-side id m makes the staff-side lookup of m resolve to that key. -/
theorem findByAdminMsg_updateEntry (rd : RepliesData) (k : String)
    (f : ThreadRec → ThreadRec) (m : Nat)
    (hk : ∃ v, (k, v) ∈ rd) (hfresh : staffMsgTracked rd m = false)
    (hf : ∀ r, claimsStaffB (f r) m = true) :
    findByAdminMsg (updateEntry rd k f) m = some k := by
  induction rd with
  | nil =>
    obtain ⟨v, hv⟩ := hk
    cases hv
  | cons e rd ih =>
    obtain ⟨k0, v0⟩ := e
    rw [staffMsgTracked, List.any_cons, Bool.or_eq_false_iff] at hfresh
    by_cases hkk : k0 = k
    · subst hkk
      simp [updateEntry, findByAdminMsg, List.find?, hf v0]
    · have hk2 : ∃ v, (k, v) ∈ rd := by
        obtain ⟨v, hv⟩ := hk
        cases List.mem_cons.mp hv with
        | inl h0 =>
            exact absurd (congrArg Prod.fst h0).symm (by simpa using hkk)
        | inr h0 => exact ⟨v, h0⟩
      have hbase : claimsStaffB v0 m = false := by simpa using hfresh.1
      have := ih hk2 (by simpa [staffMsgTracked] using hfresh.2)
      simpa [updateEntry, hkk, findByAdminMsg, List.find?, hbase] using this

/-- Appending an admin reply carrying the fresh user-side id m to the record at a
present key makes the user-side lookup of m resolve to that key with the appended
staff-side id beside it. -/
theorem findByUserReplyMsg_updateEntry (rd : RepliesData) (k : String) (amid m : Nat)
    (hk : ∃ v, (k, v) ∈ rd) (hfresh : userReplyTracked rd m = false) :
    findByUserReplyMsg
        (updateEntry rd k (fun r =>
          { r with admin_replies := r.admin_replies ++
              [{ admin_message_id := amid, user_reply_message_id := m }] })) m
      = some (k, amid) := by
  induction rd with
  | nil =>
    obtain ⟨v, hv⟩ := hk
    cases hv
  | cons e rd ih =>
    obtain ⟨k0, v0⟩ := e
    rw [userReplyTracked, List.any_cons, Bool.or_eq_false_iff] at hfresh
    by_cases hkk : k0 = k
    · subst hkk
      have hv0 : claimsUserReplyB v0 m = false := by simpa using hfresh.1
      have hany : (v0.admin_replies ++
          [({ admin_message_id := amid, user_reply_message_id := m } : AdminReply)]).any
            (fun p => decide (p.user_reply_message_id = m)) = true := by
        rw [any_false_append _ _ _ (by simpa [claimsUserReplyB] using hv0)]
        simp
      have hfind : (v0.admin_replies ++
          [({ admin_message_id := amid, user_reply_message_id := m } : AdminReply)]).find?
            (fun p => decide (p.user_reply_message_id = m))
          = some { admin_message_id := amid, user_reply_message_id := m } := by
        rw [find?_false_append _ _ _ (by simpa [claimsUserReplyB] using hv0)]
        simp [List.find?]
      simp [updateEntry, findByUserReplyMsg, List.find?, claimsUserReplyB, hany, hfind]
    · have hk2 : ∃ v, (k, v) ∈ rd := by
        obtain ⟨v, hv⟩ := hk
        cases List.mem_cons.mp hv with
        | inl h0 =>
            exact absurd (congrArg Prod.fst h0).symm (by simpa using hkk)
        | inr h0 => exact ⟨v, h0⟩
      have hbase : claimsUserReplyB v0 m = false := by simpa using hfresh.1
      have := ih hk2 (by simpa [userReplyTracked] using hfresh.2)
      simpa [updateEntry, hkk, findByUserReplyMsg, List.find?, hbase] using this

/-- A freshly written record that does not claim m keeps the staff-side index free of m. -/
theorem staffMsgTracked_setEntry (rd : RepliesData) (k : String) (v : ThreadRec) (m : Nat)
    (hv : claimsStaffB v m = false) (h : staffMsgTracked rd m = false) :
    staffMsgTracked (setEntry rd k v) m = false := by
  induction rd with
  | nil => simp [setEntry, staffMsgTracked, hv]
  | cons e rd ih =>
    obtain ⟨k0, v0⟩ := e
    rw [staffMsgTracked, List.any_cons, Bool.or_eq_false_iff] at h
    by_cases hkk : k0 = k
    · simp [setEntry, hkk, staffMsgTracked, hv, List.any_cons]
      simpa [staffMsgTracked] using h.2
    · have := ih (by simpa [staffMsgTracked] using h.2)
      simp [setEntry, hkk, staffMsgTracked, List.any_cons]
      constructor
      · simpa using h.1
      · simpa [staffMsgTracked] using this

/-- setEntry always leaves a record under the written key. -/
theorem mem_setEntry_self {κ α : Type} [DecidableEq κ] (l : List (κ × α)) (k : κ) (v : α) :
    ∃ w, (k, w) ∈ setEntry l k v := by
  induction l with
  | nil => exact ⟨v, by simp [setEntry]⟩
  | cons e l ih =>
    obtain ⟨k0, v0⟩ := e
    by_cases hkk : k0 = k
    · exact ⟨v, by simp [setEntry, hkk]⟩
    · obtain ⟨w, hw⟩ := ih
      exact ⟨w, by simp [setEntry, hkk, hw]⟩

/-! ## Claims on the correlation engine -/

/-- C1. Record/resolve round trip: (1) right after forward_to_admin_group_new records a
fresh staff-side id as admin_message_id, the staff-side lookup of handle_admin_reply
resolves it to the same thread; (2) right after handle_user_reply appends a fresh
staff-side id to admin_thread_message_ids of the thread it resolved, the staff-side
lookup resolves it to that thread; (3) right after handle_admin_reply records a fresh
delivered-copy id as user_reply_message_id for the thread it resolved (recording happens
only when the resolved key passes the line-584 falsiness guard, hence the non-empty-key
hypothesis), the user-side lookup of handle_user_reply resolves it to the same thread. -/
theorem c1_record_resolve_roundtrip :
    (∀ (rd : RepliesData) (qid : String) (u umid m : Nat),
       staffMsgTracked rd m = false →
       findByAdminMsg (forward_to_admin_group_new rd qid u umid (SendResult.ok m)).rd m
         = some qid) ∧
    (∀ (rd : RepliesData) (repliedMid m : Nat) (qid : String) (amid : Nat),
       staffMsgTracked rd m = false →
       findByUserReplyMsg rd repliedMid = some (qid, amid) →
       ¬(qid = "" ∨ amid = 0) →
       findByAdminMsg (handle_user_reply rd repliedMid (SendResult.ok m)).rd m
         = some qid) ∧
    (∀ (rd : RepliesData) (repliedMid amid m : Nat) (qid : String),
       userReplyTracked rd m = false →
       findByAdminMsg rd repliedMid = some qid → ¬(qid = "") →
       findByUserReplyMsg (handle_admin_reply rd repliedMid amid (SendResult.ok m)).rd m
         = some (qid, amid)) := by
  refine ⟨?_, ?_, ?_⟩
  · intro rd qid u umid m hfresh
    show findByAdminMsg (updateEntry (setEntry rd qid _) qid _) m = some qid
    apply findByAdminMsg_updateEntry
    · exact mem_setEntry_self rd qid _
    · exact staffMsgTracked_setEntry rd qid _ m (by simp [claimsStaffB]) hfresh
    · intro r
      simp [claimsStaffB]
  · intro rd repliedMid m qid amid hfresh hfind hguard
    unfold handle_user_reply
    rw [hfind]
    dsimp only
    rw [if_neg hguard]
    apply findByAdminMsg_updateEntry
    · exact key_of_findByUserReplyMsg hfind
    · exact hfresh
    · intro r
      simp [claimsStaffB, List.any_append]
  · intro rd repliedMid amid m qid hfresh hfind hq
    unfold handle_admin_reply
    rw [hfind]
    dsimp only
    rw [if_neg hq]
    exact findByUserReplyMsg_updateEntry rd qid amid m (key_of_findByAdminMsg hfind) hfresh

/-- C1 witness: the three record/resolve round trips at concrete states. -/
theorem c1_witness :
    staffMsgTracked [] 9 = false ∧
    findByAdminMsg (forward_to_admin_group_new [] "q" 1 2 (SendResult.ok 9)).rd 9
      = some "q" ∧
    findByUserReplyMsg [("t", ⟨1, 2, some 3, [], [⟨4, 5⟩]⟩)] 5 = some ("t", 4) ∧
    findByAdminMsg
        (handle_user_reply [("t", ⟨1, 2, some 3, [], [⟨4, 5⟩]⟩)] 5 (SendResult.ok 9)).rd 9
      = some "t" ∧
    findByUserReplyMsg
        (handle_admin_reply [("t", ⟨1, 2, some 3, [], []⟩)] 3 7 (SendResult.ok 9)).rd 9
      = some ("t", 7) :=
  ⟨by decide, c1_record_resolve_roundtrip.1 [] "q" 1 2 9 (by decide),
   by decide,
   c1_record_resolve_roundtrip.2.1 [("t", ⟨1, 2, some 3, [], [⟨4, 5⟩]⟩)] 5 9 "t" 4
     (by decide) (by decide) (by decide),
   c1_record_resolve_roundtrip.2.2 [("t", ⟨1, 2, some 3, [], []⟩)] 3 7 9 "t"
     (by decide) (by decide) (by decide)⟩

/-- C3 counterexample: a failed relay of a submission leaves the thread record that
forward_to_admin_group_new wrote before the try block inside replies_data, and no
user-visible failure notice is sent — only the log line runs. This refutes both the
unchanged-state part and the distinct-failure-message part of the claim. -/
theorem c3_counterexample :
    (forward_to_admin_group_new [] "q1" 7 3 SendResult.err).rd ≠ ([] : RepliesData) ∧
    (forward_to_admin_group_new [] "q1" 7 3 SendResult.err).failNotice = false ∧
    (forward_to_admin_group_new [] "q1" 7 3 SendResult.err).logged = true := by decide

/-- C3. Dispatch-failure behaviour, amended: when the relay of a submission fails, the
error is logged and no failure notice is sent to anyone, and the thread record created
before the send attempt stays in replies_data with admin_message_id none (only the disk
write is skipped); when the delivery of a staff reply fails, replies_data is left
unchanged, the error is logged, and the single fixed failure notice of src/bot.py line
602 is sent to the staff invoker — there are no distinct unreachable-versus-generic
messages (the send is attempted only when the resolved key passes the line-584
falsiness guard, hence the non-empty-key hypothesis). -/
theorem c3_dispatch_failure :
    (∀ (rd : RepliesData) (qid : String) (u umid : Nat),
       forward_to_admin_group_new rd qid u umid SendResult.err =
         { rd := setEntry rd qid
             { user_id := u, user_message_id := umid, admin_message_id := none,
               admin_thread_message_ids := [], admin_replies := [] },
           saved := false, logged := true, failNotice := false }) ∧
    (∀ (rd : RepliesData) (repliedMid adminMid : Nat) (qid : String),
       findByAdminMsg rd repliedMid = some qid → ¬(qid = "") →
       handle_admin_reply rd repliedMid adminMid SendResult.err =
         { rd := rd, deliveredToUser := false, confirmNotice := false,
           failNotice := true, logged := true }) := by
  constructor
  · intro rd qid u umid
    rfl
  · intro rd repliedMid adminMid qid h hq
    unfold handle_admin_reply
    rw [h]
    dsimp only
    rw [if_neg hq]

/-- C3 witness: the two failure paths at a concrete state. -/
theorem c3_witness :
    findByAdminMsg [("t", ⟨1, 2, some 3, [], []⟩)] 3 = some "t" ∧
    handle_admin_reply [("t", ⟨1, 2, some 3, [], []⟩)] 3 7 SendResult.err =
      { rd := [("t", ⟨1, 2, some 3, [], []⟩)], deliveredToUser := false,
        confirmNotice := false, failNotice := true, logged := true } :=
  ⟨by decide,
   c3_dispatch_failure.2 [("t", ⟨1, 2, some 3, [], []⟩)] 3 7 "t" (by decide) (by decide)⟩

/-- C4 counterexample: a staff reply whose own message id equals the relay id of another
thread is recorded without any check and with the success confirmation — afterwards two
threads claim the staff-side id 5, and no IdentifierCollision failure exists. -/
theorem c4_counterexample :
    (handle_admin_reply [("a", ⟨1, 10, some 5, [], []⟩), ("b", ⟨2, 20, some 6, [], []⟩)]
        6 5 (SendResult.ok 100)).confirmNotice = true ∧
    (getEntry (handle_admin_reply
        [("a", ⟨1, 10, some 5, [], []⟩), ("b", ⟨2, 20, some 6, [], []⟩)]
        6 5 (SendResult.ok 100)).rd "a").map threadStaffIds = some [5] ∧
    (getEntry (handle_admin_reply
        [("a", ⟨1, 10, some 5, [], []⟩), ("b", ⟨2, 20, some 6, [], []⟩)]
        6 5 (SendResult.ok 100)).rd "b").map threadStaffIds = some [6, 5] := by decide

/-- C4. Round-trip recording, amended: both recording operations append their
identifiers with no uniqueness check — once the lookup resolves and the line-584 (or
line-554) falsiness guard passes, neither handle_admin_reply nor handle_user_reply
checks that the outbound or inbound identifier is previously unseen, and no
IdentifierCollision failure mode exists; uniqueness of staff-side identifiers across
threads is therefore not enforced by the code. -/
theorem c4_unchecked_recording :
    (∀ (rd : RepliesData) (repliedMid adminMid m : Nat) (qid : String),
       findByAdminMsg rd repliedMid = some qid → ¬(qid = "") →
       handle_admin_reply rd repliedMid adminMid (SendResult.ok m) =
         { rd := updateEntry rd qid (fun r =>
             { r with admin_replies := r.admin_replies ++
                 [{ admin_message_id := adminMid, user_reply_message_id := m }] }),
           deliveredToUser := true, confirmNotice := true, failNotice := false,
           logged := false }) ∧
    (∀ (rd : RepliesData) (repliedMid m : Nat) (qid : String) (amid : Nat),
       findByUserReplyMsg rd repliedMid = some (qid, amid) → ¬(qid = "" ∨ amid = 0) →
       handle_user_reply rd repliedMid (SendResult.ok m) =
         { rd := updateEntry rd qid (fun r =>
             { r with admin_thread_message_ids := r.admin_thread_message_ids ++ [m] }),
           copiedToAdmin := true, confirmNotice := true, logged := false }) := by
  constructor
  · intro rd repliedMid adminMid m qid h hq
    unfold handle_admin_reply
    rw [h]
    dsimp only
    rw [if_neg hq]
  · intro rd repliedMid m qid amid h hguard
    unfold handle_user_reply
    rw [h]
    dsimp only
    rw [if_neg hguard]

/-- C4 witness: the unconditional appends at a concrete state. -/
theorem c4_witness :
    findByAdminMsg [("a", ⟨1, 10, some 5, [], []⟩)] 5 = some "a" ∧
    handle_admin_reply [("a", ⟨1, 10, some 5, [], []⟩)] 5 5 (SendResult.ok 100) =
      { rd := updateEntry [("a", ⟨1, 10, some 5, [], []⟩)] "a" (fun r =>
          { r with admin_replies := r.admin_replies ++
              [{ admin_message_id := 5, user_reply_message_id := 100 }] }),
        deliveredToUser := true, confirmNotice := true, failNotice := false,
        logged := false } :=
  ⟨by decide, c4_unchecked_recording.1 [("a", ⟨1, 10, some 5, [], []⟩)] 5 5 100 "a"
    (by decide) (by decide)⟩

/-- C5. Resolution miss is silent: when the replied-to identifier matches no tracked
thread, both reply handlers return with replies_data unchanged, nothing sent, nothing
logged. -/
theorem c5_resolution_miss_silent :
    (∀ (rd : RepliesData) (repliedMid : Nat) (send : SendResult),
       findByUserReplyMsg rd repliedMid = none →
       handle_user_reply rd repliedMid send =
         { rd := rd, copiedToAdmin := false, confirmNotice := false, logged := false }) ∧
    (∀ (rd : RepliesData) (repliedMid adminMid : Nat) (send : SendResult),
       findByAdminMsg rd repliedMid = none →
       handle_admin_reply rd repliedMid adminMid send =
         { rd := rd, deliveredToUser := false, confirmNotice := false,
           failNotice := false, logged := false }) := by
  constructor
  · intro rd repliedMid send h
    unfold handle_user_reply
    rw [h]
  · intro rd repliedMid adminMid send h
    unfold handle_admin_reply
    rw [h]

/-- C5 witness: unmatched replies on a non-empty state are dropped silently. -/
theorem c5_witness :
    findByUserReplyMsg [("t", ⟨1, 2, some 3, [], [⟨4, 5⟩]⟩)] 99 = none ∧
    handle_user_reply [("t", ⟨1, 2, some 3, [], [⟨4, 5⟩]⟩)] 99 SendResult.err =
      { rd := [("t", ⟨1, 2, some 3, [], [⟨4, 5⟩]⟩)], copiedToAdmin := false,
        confirmNotice := false, logged := false } ∧
    findByAdminMsg [("t", ⟨1, 2, some 3, [], [⟨4, 5⟩]⟩)] 99 = none ∧
    handle_admin_reply [("t", ⟨1, 2, some 3, [], [⟨4, 5⟩]⟩)] 99 7 SendResult.err =
      { rd := [("t", ⟨1, 2, some 3, [], [⟨4, 5⟩]⟩)], deliveredToUser := false,
        confirmNotice := false, failNotice := false, logged := false } :=
  ⟨by decide,
   c5_resolution_miss_silent.1 [("t", ⟨1, 2, some 3, [], [⟨4, 5⟩]⟩)] 99 SendResult.err
     (by decide),
   by decide,
   c5_resolution_miss_silent.2 [("t", ⟨1, 2, some 3, [], [⟨4, 5⟩]⟩)] 99 7 SendResult.err
     (by decide)⟩

/-! ## Helper lemmas on key counting and the ban table -/

/-- A key counted zero times is not a key of the table. -/
theorem countKey_zero {κ α : Type} [DecidableEq κ] {l : List (κ × α)} {k : κ}
    (h : countKey l k = 0) : ∀ e ∈ l, e.1 ≠ k := by
  induction l with
  | nil => simp
  | cons e l ih =>
    by_cases hk : e.1 = k
    · exfalso
      simp [countKey, List.filter_cons, hk] at h
    · intro e' he'
      cases List.mem_cons.mp he' with
      | inl h0 => rw [h0]; exact hk
      | inr h0 =>
        refine ih ?_ e' h0
        simpa [countKey, List.filter_cons, hk] using h

/-- Writing a fresh key appends it at the end of the table. -/
theorem setEntry_fresh {κ α : Type} [DecidableEq κ] {l : List (κ × α)} {k : κ} (v : α)
    (h : ∀ e ∈ l, e.1 ≠ k) : setEntry l k v = l ++ [(k, v)] := by
  induction l with
  | nil => rfl
  | cons e l ih =>
    have hk : e.1 ≠ k := h e (by simp)
    obtain ⟨k0, v0⟩ := e
    simp [setEntry, hk, ih (fun e' he' => h e' (by simp [he']))]

/-- Updating the key appended behind a table that does not carry it rewrites only the
appended record. -/
theorem updateEntry_append_fresh {κ α : Type} [DecidableEq κ] {l : List (κ × α)} {k : κ}
    (v : α) (f : α → α) (h : ∀ e ∈ l, e.1 ≠ k) :
    updateEntry (l ++ [(k, v)]) k f = l ++ [(k, f v)] := by
  induction l with
  | nil => simp [updateEntry]
  | cons e l ih =>
    have hk : e.1 ≠ k := h e (by simp)
    obtain ⟨k0, v0⟩ := e
    simp [updateEntry, hk, ih (fun e' he' => h e' (by simp [he']))]

/-- Lookup of the key appended behind a table that does not carry it. -/
theorem getEntry_append_fresh {κ α : Type} [DecidableEq κ] {l : List (κ × α)} {k : κ}
    (v : α) (h : ∀ e ∈ l, e.1 ≠ k) : getEntry (l ++ [(k, v)]) k = some v := by
  induction l with
  | nil => simp [getEntry]
  | cons e l ih =>
    have hk : e.1 ≠ k := h e (by simp)
    obtain ⟨k0, v0⟩ := e
    simp [getEntry, hk, ih (fun e' he' => h e' (by simp [he']))]

/-- Key count of the key appended behind a table that does not carry it. -/
theorem countKey_append_fresh {κ α : Type} [DecidableEq κ] {l : List (κ × α)} {k : κ}
    (v : α) (h : ∀ e ∈ l, e.1 ≠ k) : countKey (l ++ [(k, v)]) k = 1 := by
  induction l with
  | nil => simp [countKey]
  | cons e l ih =>
    have hk : e.1 ≠ k := h e (by simp)
    have ih2 := ih (fun e' he' => h e' (by simp [he']))
    simpa [countKey, List.filter_cons, hk] using ih2

/-- Lookup after writing the same key. -/
theorem getEntry_setEntry_self {κ α : Type} [DecidableEq κ] (l : List (κ × α)) (k : κ)
    (v : α) : getEntry (setEntry l k v) k = some v := by
  induction l with
  | nil => simp [setEntry, getEntry]
  | cons e l ih =>
    obtain ⟨k0, v0⟩ := e
    by_cases hk : k0 = k
    · simp [setEntry, getEntry, hk]
    · simp [setEntry, getEntry, hk, ih]

/-- Lookup of another key after a write. -/
theorem getEntry_setEntry_ne {κ α : Type} [DecidableEq κ] (l : List (κ × α)) {k0 k : κ}
    (v : α) (h : k0 ≠ k) : getEntry (setEntry l k0 v) k = getEntry l k := by
  induction l with
  | nil => simp [setEntry, getEntry, h]
  | cons e l ih =>
    obtain ⟨k1, v1⟩ := e
    by_cases hk : k1 = k0
    · subst hk
      simp [setEntry, getEntry, h]
    · simp [setEntry, getEntry, hk, ih]

/-- Lookup of another key after a deletion. -/
theorem getEntry_eraseKey_ne {κ α : Type} [DecidableEq κ] (l : List (κ × α)) {k0 k : κ}
    (h : k0 ≠ k) : getEntry (eraseKey l k0) k = getEntry l k := by
  induction l with
  | nil => rfl
  | cons e l ih =>
    obtain ⟨k1, v1⟩ := e
    by_cases hk : k1 = k0
    · subst hk
      simp [eraseKey, getEntry, h]
    · simp [eraseKey, getEntry, hk, ih]

/-- handle_user_message never touches the ban table. -/
theorem handle_user_message_banned_eq (st : BotState) (u : Nat) (qid : String) (mid : Nat)
    (mtype content : String) (send : SendResult) :
    (handle_user_message st u qid mid mtype content send).st.banned = st.banned := by
  unfold handle_user_message
  split <;> rfl

/-- One event that is not the unban of u keeps u banned. -/
theorem stepEvent_keeps_banned (st : BotState) (u : Nat) (e : BotEvent)
    (hb : is_user_banned st.banned u = true) (hne : e ≠ BotEvent.unbanCmd u) :
    is_user_banned (stepEvent st e).banned u = true := by
  cases e with
  | userMsg v qid mid mt c s =>
    rw [stepEvent, handle_user_message_banned_eq]
    exact hb
  | banCmd v a ts r =>
    simp only [stepEvent]
    simp only [ban_command, ban_user, is_user_banned] at hb ⊢
    by_cases hv : (getEntry st.banned v).isSome = true
    · simpa [hv] using hb
    · by_cases huv : v = u
      · subst huv
        simp [hv, getEntry_setEntry_self]
      · simp [hv, getEntry_setEntry_ne _ _ huv]
        exact hb
  | unbanCmd v =>
    have huv : v ≠ u := fun h0 => hne (by rw [h0])
    simp only [stepEvent]
    simp only [unban_command, unban_user, is_user_banned] at hb ⊢
    by_cases hv : (getEntry st.banned v).isSome = true
    · simp [hv, getEntry_eraseKey_ne _ huv]
      exact hb
    · simpa [hv] using hb

/-- Intake of a not-banned submission with a fresh question id appends its thread
record; the admin message id field is filled exactly when the send succeeded. -/
theorem handle_user_message_replies (st : BotState) (u : Nat) (qid : String)
    (mid : Nat) (mtype content : String) (send : SendResult)
    (hban : is_user_banned st.banned u = false)
    (hall : ∀ e ∈ st.replies, e.1 ≠ qid) :
    (handle_user_message st u qid mid mtype content send).st.replies =
      st.replies ++ [(qid, ThreadRec.mk u mid
        (match send with | SendResult.ok m => some m | SendResult.err => none)
        [] [])] := by
  cases send with
  | ok m =>
    simp only [handle_user_message, hban, Bool.false_eq_true, if_false,
      forward_to_admin_group_new]
    rw [setEntry_fresh _ hall, updateEntry_append_fresh _ _ hall]
  | err =>
    simp only [handle_user_message, hban, Bool.false_eq_true, if_false,
      forward_to_admin_group_new]
    rw [setEntry_fresh _ hall]

/-! ## Claims on submissions and the ban registry -/

/-- C2 counterexample: a failed relay attempt leaves the thread record for the accepted
submission inside replies_data (with admin_message_id none), refuting the part of the
claim that no thread record exists when the relay attempt fails. -/
theorem c2_counterexample :
    getEntry (handle_user_message ⟨[], [], []⟩ 7 "q1" 3 "نص" "hello"
        SendResult.err).st.replies "q1"
      = some { user_id := 7, user_message_id := 3, admin_message_id := none,
               admin_thread_message_ids := [], admin_replies := [] } ∧
    (handle_user_message ⟨[], [], []⟩ 7 "q1" 3 "نص" "hello" SendResult.err).relayed
      = false := by decide

/-- C2. Thread existence, amended: for an accepted submission carrying a fresh question
id, exactly one replies_data entry keyed by that id exists after handle_user_message
runs, whether or not the relay succeeded — the entry is created before the send attempt
with admin_message_id none, and the relayed staff message id is stored in it exactly on
success. Zero entries exist before the handler runs (the freshness hypothesis). -/
theorem c2_thread_record (st : BotState) (u : Nat) (qid : String) (mid : Nat)
    (mtype content : String) (send : SendResult)
    (hban : is_user_banned st.banned u = false)
    (hfresh : countKey st.replies qid = 0) :
    countKey (handle_user_message st u qid mid mtype content send).st.replies qid = 1 ∧
    (∀ m, send = SendResult.ok m →
       getEntry (handle_user_message st u qid mid mtype content send).st.replies qid
         = some { user_id := u, user_message_id := mid, admin_message_id := some m,
                  admin_thread_message_ids := [], admin_replies := [] }) ∧
    (send = SendResult.err →
       getEntry (handle_user_message st u qid mid mtype content send).st.replies qid
         = some { user_id := u, user_message_id := mid, admin_message_id := none,
                  admin_thread_message_ids := [], admin_replies := [] }) := by
  have hall := countKey_zero hfresh
  have hrd := handle_user_message_replies st u qid mid mtype content send hban hall
  refine ⟨?_, ?_, ?_⟩
  · rw [hrd]
    exact countKey_append_fresh _ hall
  · intro m hm
    subst hm
    rw [hrd]
    exact getEntry_append_fresh _ hall
  · intro hm
    subst hm
    rw [hrd]
    exact getEntry_append_fresh _ hall

/-- C2 witness: one successful intake on the empty state yields exactly one thread
record carrying the relayed staff message id. -/
theorem c2_witness :
    is_user_banned (BotState.mk [] [] []).banned 7 = false ∧
    countKey (BotState.mk [] [] []).replies "q" = 0 ∧
    countKey (handle_user_message ⟨[], [], []⟩ 7 "q" 3 "نص" "x"
        (SendResult.ok 9)).st.replies "q" = 1 :=
  ⟨by decide, by decide,
   (c2_thread_record ⟨[], [], []⟩ 7 "q" 3 "نص" "x" (SendResult.ok 9)
     (by decide) (by decide)).1⟩

/-- C10. Ban gating and unban atomicity: banning u makes u banned; a submission attempt
by a banned u is rejected with the ban notice, leaving all tables untouched, recording
nothing and relaying nothing; unban on a non-banned user answers with the not-banned
notice and leaves the table unchanged; and u stays banned across any event sequence
that contains no unban of u — so every submission attempt in between is rejected. -/
theorem c10_ban_gating :
    (∀ (bt : BannedTable) (u admin : Nat) (ts reason : String),
       is_user_banned (ban_command bt u admin ts reason) u = true) ∧
    (∀ (st : BotState) (u : Nat) (qid : String) (mid : Nat) (mtype content : String)
       (send : SendResult),
       is_user_banned st.banned u = true →
       handle_user_message st u qid mid mtype content send =
         { st := st, bannedNotice := true, confirmNotice := false, relayed := false }) ∧
    (∀ (bt : BannedTable) (u : Nat),
       is_user_banned bt u = false →
       unban_command bt u =
         { bt := bt, notBannedNotice := true, successNotice := false }) ∧
    (∀ (st : BotState) (u : Nat) (evs : List BotEvent),
       is_user_banned st.banned u = true →
       BotEvent.unbanCmd u ∉ evs →
       is_user_banned (runEvents st evs).banned u = true) := by
  refine ⟨?_, ?_, ?_, ?_⟩
  · intro bt u admin ts reason
    simp only [ban_command, ban_user, is_user_banned]
    by_cases hv : (getEntry bt u).isSome = true
    · simp [hv]
    · simp [hv, getEntry_setEntry_self]
  · intro st u qid mid mtype content send h
    simp [handle_user_message, h]
  · intro bt u h
    simp [unban_command, h]
  · intro st u evs
    induction evs generalizing st with
    | nil =>
      intro hb _
      exact hb
    | cons e evs ih =>
      intro hb hne
      rw [runEvents, List.foldl_cons]
      refine ih (stepEvent st e) ?_ (fun hm => hne (by simp [hm]))
      exact stepEvent_keeps_banned st u e hb (fun h0 => hne (by simp [h0]))

/-- C10 witness: a banned user stays banned across a submission attempt, a ban of
another user and an unban of another user; the non-banned unban leaves the empty table
unchanged. -/
theorem c10_witness :
    is_user_banned (BotState.mk [] [] [(5, ⟨"t0", 1, "r"⟩)]).banned 5 = true ∧
    BotEvent.unbanCmd 5 ∉ [BotEvent.userMsg 5 "q" 1 "نص" "x" SendResult.err,
      BotEvent.banCmd 6 1 "t1" "r1", BotEvent.unbanCmd 6] ∧
    is_user_banned (runEvents ⟨[], [], [(5, ⟨"t0", 1, "r"⟩)]⟩
        [BotEvent.userMsg 5 "q" 1 "نص" "x" SendResult.err,
         BotEvent.banCmd 6 1 "t1" "r1", BotEvent.unbanCmd 6]).banned 5 = true ∧
    is_user_banned ([] : BannedTable) 9 = false ∧
    unban_command ([] : BannedTable) 9 =
      { bt := [], notBannedNotice := true, successNotice := false } :=
  ⟨by decide, by decide,
   c10_ban_gating.2.2.2 ⟨[], [], [(5, ⟨"t0", 1, "r"⟩)]⟩ 5
     [BotEvent.userMsg 5 "q" 1 "نص" "x" SendResult.err,
      BotEvent.banCmd 6 1 "t1" "r1", BotEvent.unbanCmd 6] (by decide) (by decide),
   by decide,
   c10_ban_gating.2.2.1 [] 9 (by decide)⟩

end Shasj
